import Mathlib

/-!
# Verification of the answer-pipeline core (`src/backend/chat_functions.py`)

A shallow embedding of the pure/dispatch parts of the answer pipeline:

* `build_prompt`           (chat_functions.py lines 169-200)
* `llm` request dispatch   (lines 202-252), modelled as `llm_request`
* `evaluate_relevance`     (lines 255-303), parse stage modelled as
                           `evaluate_relevance_parse`
* `calculate_openai_cost`  (lines 306-331)
* `improve_query`          (lines 333-357)
* `get_answer` retrieval dispatch and query refinement (lines 361-429)

External effects (Elasticsearch queries, chat-completion responses, wall-clock
timing, the sentence-transformer encoder) are modelled as oracle parameters:
the functions below compute exactly what the Python code computes from those
outcomes.  Python exceptions are modelled with `Except PyError`; Python floats
are modelled as exact rationals (the pricing arithmetic involves only literals
that are exact in both representations).
-/

/-- The Python exceptions raised by code in `chat_functions.py`:
`ValueError` (in `llm` and `calculate_openai_cost`), `KeyError` (dict
subscription misses), and `json.JSONDecodeError` (from `json.loads`). -/
inductive PyError where
  | valueError (msg : String)
  | keyError (key : String)
  | jsonDecodeError
deriving DecidableEq

/-- The token-usage dictionary built in `llm` (lines 243-247). -/
structure Tokens where
  prompt_tokens : Nat
  completion_tokens : Nat
  total_tokens : Nat
deriving DecidableEq

/-- A retrieved document as consumed by `build_prompt` (lines 194-199):
a dict with `id`, `question` and `answer` keys. -/
structure Doc where
  id : String
  question : String
  answer : String
deriving DecidableEq

/-! ## Python string primitives

Python `str` operations used by the embedded functions, implemented over
`List Char` so that they compute definitionally. -/

/-- The whitespace characters removed by Python `str.strip()` with no
argument: space, tab, linefeed, carriage return, vertical tab, form feed. -/
def isPySpace (c : Char) : Bool :=
  c == ' ' || c == '\t' || c == '\n' || c == '\r' || c == '\x0b' || c == '\x0c'

/-- Leading-whitespace removal (`str.lstrip()`), on the character list. -/
def pyLStripL (l : List Char) : List Char :=
  l.dropWhile isPySpace

/-- Trailing-whitespace removal (`str.rstrip()`), on the character list. -/
def pyRStripL (l : List Char) : List Char :=
  (l.reverse.dropWhile isPySpace).reverse

/-- Python `str.strip()`: drop whitespace from both ends. -/
def pyStripL (l : List Char) : List Char :=
  pyRStripL (pyLStripL l)

/-- Python `str.strip()` on `String`. -/
def pyStrip (s : String) : String :=
  String.mk (pyStripL s.data)

/-- Is `p` a prefix of `l`?  (The comparison behind `str.startswith`.) -/
def isPrefixOfL (p l : List Char) : Bool :=
  match p with
  | [] => true
  | a :: as =>
    match l with
    | [] => false
    | b :: bs => a == b && isPrefixOfL as bs

/-- Python `s.startswith(pre)`. -/
def pyStartswith (s pre : String) : Bool :=
  isPrefixOfL pre.data s.data

/-- Python `s.split(sep)` for a one-character separator: the list of chunks
between occurrences of `sep`; always non-empty, `[""]` on the empty string. -/
def splitCharL (sep : Char) (l : List Char) : List (List Char) :=
  match l with
  | [] => [[]]
  | c :: rest =>
    if c == sep then [] :: splitCharL sep rest
    else
      match splitCharL sep rest with
      | [] => [[c]]
      | p :: ps => (c :: p) :: ps

/-- Python `model_choice.split('/')[-1]`: the last chunk of the `/`-split.
`split` never returns an empty list, so the `[-1]` index never fails;
the default `[]` of `getLastD` is unreachable. -/
def pySplitSlashLast (s : String) : String :=
  String.mk (List.getLastD (splitCharL '/' s.data) [])

/-- Split `l` around the first occurrence of `pat`: `some (before, after)`
when `pat` occurs, `none` otherwise.  (The search behind `str.format`'s
placeholder substitution.) -/
def splitOnceL (pat l : List Char) : Option (List Char × List Char) :=
  if isPrefixOfL pat l then some ([], l.drop pat.length)
  else
    match l with
    | [] => none
    | c :: rest =>
      match splitOnceL pat rest with
      | none => none
      | some (a, b) => some (c :: a, b)

/-- Python `template.format(question=q, context=c)` for the `build_prompt`
template: each placeholder occurs exactly once, `{question}` before
`{context}`, and `str.format` does not rescan substituted text, so the
template is split around the two placeholders and the pieces interleaved
with the arguments. -/
def formatQuestionContext (template q c : String) : String :=
  match splitOnceL "{question}".data template.data with
  | none => template
  | some (a, rest) =>
    match splitOnceL "{context}".data rest with
    | none => String.mk (a ++ q.data ++ rest)
    | some (b, d) => String.mk (a ++ q.data ++ b ++ c.data ++ d)

/-! ## `build_prompt` (lines 169-200) -/

/-- The `prompt_template` literal of `build_prompt` (lines 183-192), after
the `.strip()` applied at its definition.  The literal is reproduced
byte-for-byte, indentation included. -/
def prompt_template : String :=
  pyStrip "\n                        You're a doctor assistant chat bot. Answer the QUESTION based on the CONTEXT from the FAQ database.\n                        Use only the facts from the CONTEXT when answering the QUESTION. Do not make any answers up if you do not\n                        have enough context. If you do not know, state 'sorry I don't have an answer to that question'.\n\n                        QUESTION: {question}\n\n                        CONTEXT: \n                        {context}\n                      "

/-- `build_prompt(query, search_results)` (lines 169-200): join the search
results into a context block (`id: …\nquestion: …\nanswer: …`, separated by
blank lines), substitute query and context into the template, and `.strip()`
the result. -/
def build_prompt (query : String) (search_results : List Doc) : String :=
  let context := String.intercalate "\n\n"
    (search_results.map (fun doc =>
      "id: " ++ doc.id ++ "\nquestion: " ++ doc.question ++ "\nanswer: " ++ doc.answer))
  pyStrip (formatQuestionContext prompt_template query context)

/-- The stripped template's text before the `{question}` placeholder.
`prompt_template` factors as
`tmpl_before_question ++ "{question}" ++ tmpl_between ++ "{context}"`
(proved in `splitOnceL_question_prompt_template` /
`splitOnceL_context_rest` below). -/
def tmpl_before_question : String :=
  "You're a doctor assistant chat bot. Answer the QUESTION based on the CONTEXT from the FAQ database.\n                        Use only the facts from the CONTEXT when answering the QUESTION. Do not make any answers up if you do not\n                        have enough context. If you do not know, state 'sorry I don't have an answer to that question'.\n\n                        QUESTION: "

/-- The stripped template's text between the two placeholders. -/
def tmpl_between : String :=
  "\n\n                        CONTEXT: \n                        "

/-- `tmpl_between` after removal of trailing whitespace: what survives the
final `.strip()` of `build_prompt` when the context block is empty. -/
def tmpl_between_stripped : String :=
  "\n\n                        CONTEXT:"

/-- The fallback instruction embedded in the template: the text telling the
model what to state when it does not have an answer. -/
def fallback_instruction : String :=
  "sorry I don't have an answer to that question"

/-- `tmpl_before_question` up to the opening quote of the fallback
instruction. -/
def tmpl_before_fallback : String :=
  "You're a doctor assistant chat bot. Answer the QUESTION based on the CONTEXT from the FAQ database.\n                        Use only the facts from the CONTEXT when answering the QUESTION. Do not make any answers up if you do not\n                        have enough context. If you do not know, state '"

/-- `tmpl_before_question` from the closing quote of the fallback
instruction on. -/
def tmpl_after_fallback : String :=
  "'.\n\n                        QUESTION: "

/-! ## `llm` (lines 202-252) -/

/-- The two chat-completion client objects constructed at module scope
(lines 48-49).  There is no AWS Bedrock client: the `aws_bedrock/` branch of
`llm` uses `openai_client`. -/
inductive ApiClient where
  | ollama_client
  | openai_client
deriving DecidableEq

/-- A chat-completion request as issued by `llm`: which client object the
call goes through, the `model=` argument, and the `messages=` list as
(role, content) pairs. -/
structure ChatRequest where
  client : ApiClient
  model : String
  messages : List (String × String)
deriving DecidableEq

/-- The dispatch of `llm(prompt, model_choice)` (lines 221-240): which
chat-completion request is issued, or the `ValueError` raised.  The model's
response, token counts and timing are external and not modelled; `.ok r`
means the single network call `r` is made, `.error e` means `e` is raised
with no call made. -/
def llm_request (prompt model_choice : String) : Except PyError ChatRequest :=
  if pyStartswith model_choice "ollama/" then
    .ok ⟨.ollama_client, pySplitSlashLast model_choice, [("user", prompt)]⟩
  else if pyStartswith model_choice "openai/" then
    .ok ⟨.openai_client, pySplitSlashLast model_choice, [("user", prompt)]⟩
  else if pyStartswith model_choice "aws_bedrock/" then
    .ok ⟨.openai_client, pySplitSlashLast model_choice, [("user", prompt)]⟩
  else
    .error (.valueError ("Unknown model choice: " ++ model_choice))

/-- The network calls performed by one invocation of `llm`: exactly one on
the recognized-prefix branches, none when the `ValueError` is raised. -/
def llm_network_calls (prompt model_choice : String) : List ChatRequest :=
  match llm_request prompt model_choice with
  | .ok r => [r]
  | .error _ => []

/-! ## `evaluate_relevance` (lines 255-303) -/

/-- Python dict subscription `d[k]` on a string-valued dict: the value when
the key is present, a `KeyError` otherwise. -/
def dictGetStr (d : List (String × String)) (k : String) : Except PyError String :=
  match d.find? (fun p => p.1 == k) with
  | some p => .ok p.2
  | none => .error (.keyError k)

/-- The parse stage of `evaluate_relevance` (lines 299-303).  The evaluator
model's output string is external, so `json.loads(evaluation)` is modelled
by its outcome `json_loads_result`: `.error .jsonDecodeError` when the
string is not valid JSON, `.ok d` with the parsed object as a key/value
list otherwise (the two values read are strings).  The `try`/`except`
catches exactly `json.JSONDecodeError`; a `KeyError` from `d['Relevance']`
or `d['Explanation']` is not caught and propagates. -/
def evaluate_relevance_parse
    (json_loads_result : Except PyError (List (String × String)))
    (tokens : Tokens) : Except PyError (String × String × Tokens) :=
  match json_loads_result with
  | .error .jsonDecodeError => .ok ("UNKNOWN", "Failed to parse evaluation", tokens)
  | .error e => .error e
  | .ok json_eval =>
    match dictGetStr json_eval "Relevance" with
    | .error e => .error e
    | .ok rel =>
      match dictGetStr json_eval "Explanation" with
      | .error e => .error e
      | .ok expl => .ok (rel, expl, tokens)

/-! ## `calculate_openai_cost` (lines 306-331) -/

/-- `calculate_openai_cost(model_choice, tokens)` (lines 324-331).  Exactly
three model identifiers have prices; every other identifier — including
every `ollama/…` one — raises `ValueError`.  Python float arithmetic is
modelled as exact rational arithmetic (all the literals are exact). -/
def calculate_openai_cost (model_choice : String) (tokens : Tokens) : Except PyError ℚ :=
  if model_choice == "openai/gpt-3.5-turbo" then
    .ok (((tokens.prompt_tokens : ℚ) * 0.0015 + (tokens.completion_tokens : ℚ) * 0.002) / 1000)
  else if model_choice == "openai/gpt-4o" || model_choice == "openai/gpt-4o-mini" then
    .ok (((tokens.prompt_tokens : ℚ) * 0.03 + (tokens.completion_tokens : ℚ) * 0.06) / 1000)
  else
    .error (.valueError ("Unknown model choice: " ++ model_choice))

/-! ## `improve_query` (lines 333-357) and its use in `get_answer` -/

/-- `improve_query(user_query, model)` (lines 333-357).  The body builds a
rewriting prompt, calls `llm`, and returns the model's output verbatim.
The `llm` call's outcome is external and passed as `llm_outcome` (`.ok s`:
the call returned content `s`; `.error e`: the call raised `e`).  There is
no `try`/`except` and no emptiness check: an exception propagates, and an
empty rewrite is returned as-is — `user_query` is never consulted again. -/
def improve_query (llm_outcome : Except PyError String) (user_query : String) :
    Except PyError String :=
  match llm_outcome with
  | .ok improved => .ok improved
  | .error e => .error e

/-- Line 394 of `get_answer`: `query = improve_query(query)`, with no
surrounding `try`/`except` — the query used by the rest of the pipeline is
whatever `improve_query` produces, and an exception leaves `get_answer`. -/
def get_answer_refined_query (llm_outcome : Except PyError String) (query : String) :
    Except PyError String :=
  improve_query llm_outcome query

/-! ## `get_answer` retrieval dispatch (lines 396-404) -/

/-- The results each retrieval backend would return for the current query:
`elastic_search_knn('question_vector', vector)`,
`elastic_search_hybrid('question_vector', query, vector)` and
`elastic_search_text(query)` are external calls, modelled by their
outcomes. -/
structure RetrievalBackends where
  knn : List Doc
  hybrid : List Doc
  text : List Doc

/-- The retrieval dispatch of `get_answer` (lines 396-404), statement by
statement.  The Python is a first `if` (line 397) followed by a separate
`if`/`else` (lines 400-404) — not an `elif` chain — so the second statement
assigns `search_results` unconditionally, overwriting whatever the first
`if` assigned.  `Option` tracks whether the variable has been assigned at
all ( `none` = unbound). -/
def get_answer_search_results (b : RetrievalBackends) (search_type : String) :
    Option (List Doc) :=
  let search_results : Option (List Doc) := none
  let search_results := if search_type == "Vector" then some b.knn else search_results
  let search_results := if search_type == "Hybrid" then some b.hybrid else some b.text
  search_results

/-! ## Helper lemmas -/

/-- Unfold `calculate_openai_cost` on the gpt-3.5-turbo branch. -/
theorem calculate_openai_cost_gpt35 (model_choice : String) (t : Tokens)
    (h : (model_choice == "openai/gpt-3.5-turbo") = true) :
    calculate_openai_cost model_choice t =
      .ok (((t.prompt_tokens : ℚ) * 0.0015 + (t.completion_tokens : ℚ) * 0.002) / 1000) := by
  unfold calculate_openai_cost
  rw [h]
  rfl

/-- Unfold `calculate_openai_cost` on the gpt-4o / gpt-4o-mini branch. -/
theorem calculate_openai_cost_gpt4o (model_choice : String) (t : Tokens)
    (h : (model_choice == "openai/gpt-3.5-turbo") = false)
    (h2 : (model_choice == "openai/gpt-4o" || model_choice == "openai/gpt-4o-mini") = true) :
    calculate_openai_cost model_choice t =
      .ok (((t.prompt_tokens : ℚ) * 0.03 + (t.completion_tokens : ℚ) * 0.06) / 1000) := by
  unfold calculate_openai_cost
  rw [h, h2]
  rfl

/-- Unfold `calculate_openai_cost` on the `ValueError` branch. -/
theorem calculate_openai_cost_unknown (model_choice : String) (t : Tokens)
    (h : (model_choice == "openai/gpt-3.5-turbo") = false)
    (h2 : (model_choice == "openai/gpt-4o" || model_choice == "openai/gpt-4o-mini") = false) :
    calculate_openai_cost model_choice t =
      .error (.valueError ("Unknown model choice: " ++ model_choice)) := by
  unfold calculate_openai_cost
  rw [h, h2]
  rfl

/-! ## Claims -/

/-- C1: the claim states that `get_answer`'s retrieval step is an exhaustive,
mutually exclusive three-way dispatch in which mode `Vector` yields exactly
the k-NN result.  The code (lines 396-404) uses `if` / `if`-`else` instead of
an `elif` chain, so the second statement's `else` branch overwrites the
`Vector` assignment: for every backend outcome, mode `Vector` ends with the
text-search result, never the k-NN result.  `Hybrid` and `Text` behave as
claimed. -/
theorem get_answer_vector_mode_returns_text_results (b : RetrievalBackends) :
    get_answer_search_results b "Vector" = some b.text ∧
    get_answer_search_results b "Hybrid" = some b.hybrid ∧
    get_answer_search_results b "Text" = some b.text := by
  refine ⟨rfl, rfl, rfl⟩

/-- C2: the claim states `evaluate_relevance` never raises and returns
`("UNKNOWN", "Failed to parse evaluation", tokens)` on any malformed
evaluator output, including valid JSON lacking the `Relevance` /
`Explanation` keys.  The `except` clause (line 302) catches only
`json.JSONDecodeError`, so on evaluator output `{"Answer": "ok"}` — valid
JSON without the expected keys — the subscription `json_eval['Relevance']`
raises `KeyError`, which propagates to the caller. -/
theorem evaluate_relevance_missing_key_raises (t : Tokens) :
    evaluate_relevance_parse (.ok [("Answer", "ok")]) t = .error (.keyError "Relevance") ∧
    evaluate_relevance_parse (.ok [("Answer", "ok")]) t ≠
      .ok ("UNKNOWN", "Failed to parse evaluation", t) := by
  refine ⟨rfl, by simp [evaluate_relevance_parse, dictGetStr]⟩

/-- C3: the claim states cost on a backend without a pricing entry (e.g. any
`ollama/…` model) returns 0.  `calculate_openai_cost` (lines 324-331) prices
exactly three `openai/` identifiers and raises `ValueError` for everything
else, so `ollama/phi3` — a model the frontend offers — raises instead of
returning 0.  (The second half of the claim, raising on an unrecognized
`openai/…` name, does hold and is included.) -/
theorem calculate_openai_cost_ollama_raises (t : Tokens) :
    calculate_openai_cost "ollama/phi3" t =
      .error (.valueError ("Unknown model choice: " ++ "ollama/phi3")) ∧
    calculate_openai_cost "openai/gpt-5" t =
      .error (.valueError ("Unknown model choice: " ++ "openai/gpt-5")) := by
  refine ⟨rfl, rfl⟩

/-- C4: the claim states that a failed or empty query refinement falls back
to the original raw query and never propagates to the caller.  Neither
`improve_query` (lines 333-357) nor its call site in `get_answer` (line 394)
has a `try`/`except` or an emptiness check: an exception from the refinement
call propagates out of `get_answer`, and an empty refinement replaces the
query — the original query is discarded in both cases. -/
theorem get_answer_refinement_failure_propagates (e : PyError) (q : String) :
    get_answer_refined_query (.error e) q = .error e ∧
    get_answer_refined_query (.ok "") q = .ok "" := by
  refine ⟨rfl, rfl⟩

/-- C5: for every prompt and model identifier whose prefix is none of the
recognized providers (`ollama/`, `openai/`, `aws_bedrock/`), `llm`
(lines 221-240) raises `ValueError` and issues no chat-completion request. -/
theorem llm_unknown_provider_no_network_call (prompt model_choice : String)
    (h1 : pyStartswith model_choice "ollama/" = false)
    (h2 : pyStartswith model_choice "openai/" = false)
    (h3 : pyStartswith model_choice "aws_bedrock/" = false) :
    llm_request prompt model_choice =
      .error (.valueError ("Unknown model choice: " ++ model_choice)) ∧
    llm_network_calls prompt model_choice = [] := by
  have hreq : llm_request prompt model_choice =
      .error (.valueError ("Unknown model choice: " ++ model_choice)) := by
    unfold llm_request
    rw [h1, h2, h3]
    rfl
  refine ⟨hreq, ?_⟩
  unfold llm_network_calls
  rw [hreq]

/-- Witness for C5: the spec's Scenario C input `unknownprovider/foo`. -/
theorem llm_unknown_provider_no_network_call_witness :
    pyStartswith "unknownprovider/foo" "ollama/" = false ∧
    pyStartswith "unknownprovider/foo" "openai/" = false ∧
    pyStartswith "unknownprovider/foo" "aws_bedrock/" = false ∧
    (llm_request "hi" "unknownprovider/foo" =
       .error (.valueError ("Unknown model choice: " ++ "unknownprovider/foo")) ∧
     llm_network_calls "hi" "unknownprovider/foo" = []) :=
  ⟨rfl, rfl, rfl, llm_unknown_provider_no_network_call "hi" "unknownprovider/foo" rfl rfl rfl⟩

/-- Counterexample to C6 as stated: on evaluator output
`{"Relevance": "UNKNOWN", "Explanation": "answer unrelated"}` the parse
succeeds, yet `evaluate_relevance` surfaces `UNKNOWN` — i.e. as the model's
own judgment; and on output `{"Relevance": "SOMEWHAT_RELEVANT", …}` it
returns a classification outside the four-element set.  The code never
validates the model's `Relevance` value. -/
theorem evaluate_relevance_surfaces_model_output_verbatim :
    evaluate_relevance_parse
        (.ok [("Relevance", "UNKNOWN"), ("Explanation", "answer unrelated")]) ⟨7, 3, 10⟩ =
      .ok ("UNKNOWN", "answer unrelated", ⟨7, 3, 10⟩) ∧
    evaluate_relevance_parse
        (.ok [("Relevance", "SOMEWHAT_RELEVANT"), ("Explanation", "e")]) ⟨7, 3, 10⟩ =
      .ok ("SOMEWHAT_RELEVANT", "e", ⟨7, 3, 10⟩) := by
  refine ⟨rfl, rfl⟩

/-- C6 (amended): on a successful parse whose object carries both keys,
`evaluate_relevance` returns the model's `Relevance` and `Explanation`
values verbatim, with no validation against
{NON_RELEVANT, PARTLY_RELEVANT, RELEVANT, UNKNOWN}; on a JSON decode
failure it returns `UNKNOWN` with the fixed explanation.  So every decode
failure yields `UNKNOWN`, but `UNKNOWN` (or any string at all) can equally
be surfaced as the model's own judgment. -/
theorem evaluate_relevance_classification_verbatim
    (d : List (String × String)) (t : Tokens) (rel expl : String)
    (hrel : dictGetStr d "Relevance" = .ok rel)
    (hexpl : dictGetStr d "Explanation" = .ok expl) :
    evaluate_relevance_parse (.ok d) t = .ok (rel, expl, t) ∧
    evaluate_relevance_parse (.error .jsonDecodeError) t =
      .ok ("UNKNOWN", "Failed to parse evaluation", t) := by
  constructor
  · have hred : evaluate_relevance_parse (.ok d) t =
        match dictGetStr d "Relevance" with
        | .error e => .error e
        | .ok rel =>
          match dictGetStr d "Explanation" with
          | .error e => .error e
          | .ok expl => .ok (rel, expl, t) := rfl
    rw [hred, hrel, hexpl]
  · rfl

/-- Witness for the amended C6 at a concrete parsed object. -/
theorem evaluate_relevance_classification_verbatim_witness :
    dictGetStr [("Relevance", "RELEVANT"), ("Explanation", "on topic")] "Relevance" =
      .ok "RELEVANT" ∧
    dictGetStr [("Relevance", "RELEVANT"), ("Explanation", "on topic")] "Explanation" =
      .ok "on topic" ∧
    (evaluate_relevance_parse
         (.ok [("Relevance", "RELEVANT"), ("Explanation", "on topic")]) ⟨7, 3, 10⟩ =
       .ok ("RELEVANT", "on topic", ⟨7, 3, 10⟩) ∧
     evaluate_relevance_parse (.error .jsonDecodeError) ⟨7, 3, 10⟩ =
       .ok ("UNKNOWN", "Failed to parse evaluation", ⟨7, 3, 10⟩)) :=
  ⟨rfl, rfl,
   evaluate_relevance_classification_verbatim
     [("Relevance", "RELEVANT"), ("Explanation", "on topic")] ⟨7, 3, 10⟩
     "RELEVANT" "on topic" rfl rfl⟩

/-- C7: for a fixed priced model, `calculate_openai_cost` is monotonically
non-decreasing in each token count: whenever it prices two usages of the
same model and neither token count decreases, the cost does not decrease.
All per-1000-token rates (0.0015, 0.002, 0.03, 0.06) are non-negative. -/
theorem calculate_openai_cost_monotone (model_choice : String) (t t' : Tokens) (c c' : ℚ)
    (hp : t.prompt_tokens ≤ t'.prompt_tokens)
    (hc : t.completion_tokens ≤ t'.completion_tokens)
    (h : calculate_openai_cost model_choice t = .ok c)
    (h' : calculate_openai_cost model_choice t' = .ok c') :
    c ≤ c' := by
  have hp' : (t.prompt_tokens : ℚ) ≤ (t'.prompt_tokens : ℚ) := by exact_mod_cast hp
  have hc' : (t.completion_tokens : ℚ) ≤ (t'.completion_tokens : ℚ) := by exact_mod_cast hc
  rcases hb : (model_choice == "openai/gpt-3.5-turbo") with _ | _
  · rcases hb2 : (model_choice == "openai/gpt-4o" || model_choice == "openai/gpt-4o-mini") with _ | _
    · rw [calculate_openai_cost_unknown model_choice t hb hb2] at h
      exact absurd h (by simp)
    · rw [calculate_openai_cost_gpt4o model_choice t hb hb2] at h
      rw [calculate_openai_cost_gpt4o model_choice t' hb hb2] at h'
      injection h with h
      injection h' with h'
      subst h
      subst h'
      linarith
  · rw [calculate_openai_cost_gpt35 model_choice t hb] at h
    rw [calculate_openai_cost_gpt35 model_choice t' hb] at h'
    injection h with h
    injection h' with h'
    subst h
    subst h'
    linarith

/-- Witness for C7: gpt-4o-mini with token counts (10, 5) against (12, 5). -/
theorem calculate_openai_cost_monotone_witness :
    (10 : Nat) ≤ 12 ∧ (5 : Nat) ≤ 5 ∧
    calculate_openai_cost "openai/gpt-4o-mini" ⟨10, 5, 15⟩ =
      .ok ((((10 : Nat) : ℚ) * 0.03 + ((5 : Nat) : ℚ) * 0.06) / 1000) ∧
    calculate_openai_cost "openai/gpt-4o-mini" ⟨12, 5, 17⟩ =
      .ok ((((12 : Nat) : ℚ) * 0.03 + ((5 : Nat) : ℚ) * 0.06) / 1000) ∧
    (((10 : Nat) : ℚ) * 0.03 + ((5 : Nat) : ℚ) * 0.06) / 1000 ≤
      (((12 : Nat) : ℚ) * 0.03 + ((5 : Nat) : ℚ) * 0.06) / 1000 := by
  have h1 := calculate_openai_cost_gpt4o "openai/gpt-4o-mini" ⟨10, 5, 15⟩ rfl rfl
  have h2 := calculate_openai_cost_gpt4o "openai/gpt-4o-mini" ⟨12, 5, 17⟩ rfl rfl
  exact ⟨by norm_num, le_refl 5, h1, h2,
    calculate_openai_cost_monotone "openai/gpt-4o-mini" ⟨10, 5, 15⟩ ⟨12, 5, 17⟩ _ _
      (by norm_num) (le_refl 5) h1 h2⟩

/-- C8: `build_prompt` is deterministic — it is a pure function of the
query and the ordered search-result list alone, so identical inputs yield
byte-identical prompts. -/
theorem build_prompt_deterministic (q q' : String) (rs rs' : List Doc)
    (hq : q = q') (hrs : rs = rs') : build_prompt q rs = build_prompt q' rs' := by
  rw [hq, hrs]

/-- Witness for C8 at a concrete query and result list. -/
theorem build_prompt_deterministic_witness :
    "what is diabetes" = "what is diabetes" ∧
    [Doc.mk "d1" "q1" "a1"] = [Doc.mk "d1" "q1" "a1"] ∧
    build_prompt "what is diabetes" [Doc.mk "d1" "q1" "a1"] =
      build_prompt "what is diabetes" [Doc.mk "d1" "q1" "a1"] :=
  ⟨rfl, rfl,
   build_prompt_deterministic "what is diabetes" "what is diabetes"
     [Doc.mk "d1" "q1" "a1"] [Doc.mk "d1" "q1" "a1"] rfl rfl⟩

/-- `splitCharL` never returns the empty list. -/
theorem splitCharL_ne_nil (sep : Char) (l : List Char) : splitCharL sep l ≠ [] := by
  match l with
  | [] => simp [splitCharL]
  | c :: rest =>
    simp only [splitCharL]
    split
    · simp
    · split
      · simp
      · simp

/-- Splitting at a separator that first occurs right after `l1`. -/
theorem splitCharL_append_sep (sep : Char) (l1 l2 : List Char) (h : sep ∉ l1) :
    splitCharL sep (l1 ++ sep :: l2) = l1 :: splitCharL sep l2 := by
  induction l1 with
  | nil => simp [splitCharL]
  | cons c rest ih =>
    have hc : (c == sep) = false := by
      simp only [beq_eq_false_iff_ne, ne_eq]
      intro hceq
      exact h (by simp [hceq])
    have hrest : sep ∉ rest := fun hmem => h (List.mem_cons_of_mem c hmem)
    simp only [List.cons_append, splitCharL, hc, Bool.false_eq_true, if_false,
      List.append_eq, ih hrest]

/-- `getLastD` of a non-empty list ignores the default. -/
theorem getLastD_of_ne_nil (l : List (List Char)) (a b : List Char) (h : l ≠ []) :
    l.getLastD a = l.getLastD b := by
  cases l with
  | nil => exact absurd rfl h
  | cons x xs => rw [List.getLastD_cons, List.getLastD_cons]

/-- The `model=` argument computed by `llm` is the same for
`aws_bedrock/<m>` and `openai/<m>`: both are `split('/')[-1]` of the full
identifier, and the provider chunk is discarded by the `[-1]` index. -/
theorem pySplitSlashLast_provider_irrelevant (m : String) :
    pySplitSlashLast ("aws_bedrock/" ++ m) = pySplitSlashLast ("openai/" ++ m) := by
  unfold pySplitSlashLast
  have e1 : ("aws_bedrock/" ++ m).data = "aws_bedrock".data ++ '/' :: m.data := by
    rw [String.data_append, show "aws_bedrock/".data = "aws_bedrock".data ++ ['/'] from rfl,
      List.append_assoc, List.singleton_append]
  have e2 : ("openai/" ++ m).data = "openai".data ++ '/' :: m.data := by
    rw [String.data_append, show "openai/".data = "openai".data ++ ['/'] from rfl,
      List.append_assoc, List.singleton_append]
  rw [e1, e2, splitCharL_append_sep '/' "aws_bedrock".data m.data (by decide),
    splitCharL_append_sep '/' "openai".data m.data (by decide),
    List.getLastD_cons, List.getLastD_cons,
    getLastD_of_ne_nil (splitCharL '/' m.data) "aws_bedrock".data "openai".data
      (splitCharL_ne_nil '/' m.data)]

/-- C10: for every prompt and model name `m`, `llm` treats
`aws_bedrock/<m>` exactly as `openai/<m>`: both branches (lines 228-238)
issue the identical chat-completion request — same client object
(`openai_client`), same `model=` argument (`split('/')[-1]`), same
single-user-message list — so the `aws_bedrock/` prefix is an alias of the
`openai/` provider, not a distinct backend. -/
theorem llm_aws_bedrock_aliases_openai (prompt m : String) :
    llm_request prompt ("aws_bedrock/" ++ m) = llm_request prompt ("openai/" ++ m) := by
  have c1 : pyStartswith ("aws_bedrock/" ++ m) "ollama/" = false := by
    unfold pyStartswith
    rw [String.data_append]
    rfl
  have c2 : pyStartswith ("aws_bedrock/" ++ m) "openai/" = false := by
    unfold pyStartswith
    rw [String.data_append]
    rfl
  have c3 : pyStartswith ("aws_bedrock/" ++ m) "aws_bedrock/" = true := by
    unfold pyStartswith
    rw [String.data_append]
    rfl
  have d1 : pyStartswith ("openai/" ++ m) "ollama/" = false := by
    unfold pyStartswith
    rw [String.data_append]
    rfl
  have d2 : pyStartswith ("openai/" ++ m) "openai/" = true := by
    unfold pyStartswith
    rw [String.data_append]
    rfl
  unfold llm_request
  rw [c1, c2, c3, d1, d2]
  simp only [Bool.false_eq_true, if_false, if_true]
  rw [pySplitSlashLast_provider_irrelevant m]

set_option maxRecDepth 10000

/-- Evaluation rule for `formatQuestionContext` when both placeholders are
found. -/
theorem formatQuestionContext_eq (tmpl q c : String) (a rest b d : List Char)
    (h1 : splitOnceL "{question}".data tmpl.data = some (a, rest))
    (h2 : splitOnceL "{context}".data rest = some (b, d)) :
    formatQuestionContext tmpl q c = String.mk (a ++ q.data ++ b ++ c.data ++ d) := by
  unfold formatQuestionContext
  split
  · rename_i hnone
    rw [h1] at hnone
    exact absurd hnone (by simp)
  · rename_i a' rest' heq
    rw [h1] at heq
    simp only [Option.some.injEq, Prod.mk.injEq] at heq
    obtain ⟨rfl, rfl⟩ := heq
    split
    · rename_i hnone2
      rw [h2] at hnone2
      exact absurd hnone2 (by simp)
    · rename_i b' d' heq2
      rw [h2] at heq2
      simp only [Option.some.injEq, Prod.mk.injEq] at heq2
      obtain ⟨rfl, rfl⟩ := heq2
      rfl

/-- The template splits at `{question}` into `tmpl_before_question` and the
remainder. -/
theorem splitOnceL_question_prompt_template :
    splitOnceL "{question}".data prompt_template.data =
      some (tmpl_before_question.data, (tmpl_between ++ "{context}").data) := by
  decide

/-- The remainder splits at `{context}` into `tmpl_between` and nothing. -/
theorem splitOnceL_context_rest :
    splitOnceL "{context}".data (tmpl_between ++ "{context}").data =
      some (tmpl_between.data, []) := by
  decide

/-- Trailing-whitespace removal only touches the last of two appended
pieces when stripping the second piece leaves something. -/
theorem pyRStripL_append (x y : List Char) (h : y.reverse.dropWhile isPySpace ≠ []) :
    pyRStripL (x ++ y) = x ++ pyRStripL y := by
  unfold pyRStripL
  rw [List.reverse_append, List.dropWhile_append,
    if_neg (by simpa [List.isEmpty_iff] using h), List.reverse_append, List.reverse_reverse]

/-- C9: for every query, `build_prompt` applied to an empty result list
returns a non-empty prompt (the stripped template around the query, with an
empty context block) that still contains the fallback instruction telling
the model what to state when it does not have an answer. -/
theorem build_prompt_empty_results_contains_fallback (q : String) :
    build_prompt q [] ≠ "" ∧
    ∃ pre post, (build_prompt q []).data = pre ++ fallback_instruction.data ++ post := by
  have hfmt : formatQuestionContext prompt_template q "" =
      String.mk (tmpl_before_question.data ++ q.data ++ tmpl_between.data ++ "".data ++ []) :=
    formatQuestionContext_eq prompt_template q "" tmpl_before_question.data
      (tmpl_between ++ "{context}").data tmpl_between.data []
      splitOnceL_question_prompt_template splitOnceL_context_rest
  have hmk : String.mk (tmpl_before_question.data ++ q.data ++ tmpl_between.data ++ "".data ++ []) =
      String.mk ((tmpl_before_question.data ++ q.data) ++ tmpl_between.data) := by
    rw [show ("".data : List Char) = [] from rfl, List.append_nil, List.append_nil]
  have hdata : (build_prompt q []).data =
      pyStripL ((formatQuestionContext prompt_template q "").data) := rfl
  have hstrip : pyStripL ((tmpl_before_question.data ++ q.data) ++ tmpl_between.data) =
      (tmpl_before_question.data ++ q.data) ++ tmpl_between_stripped.data := by
    unfold pyStripL
    rw [show pyLStripL ((tmpl_before_question.data ++ q.data) ++ tmpl_between.data) =
        (tmpl_before_question.data ++ q.data) ++ tmpl_between.data from rfl]
    rw [pyRStripL_append _ _ (by decide)]
    rw [show pyRStripL tmpl_between.data = tmpl_between_stripped.data from rfl]
  have hfull : (build_prompt q []).data =
      (tmpl_before_question.data ++ q.data) ++ tmpl_between_stripped.data := by
    rw [hdata, hfmt, hmk]
    exact hstrip
  constructor
  · intro h0
    have h1 : ((tmpl_before_question.data ++ q.data) ++ tmpl_between_stripped.data : List Char)
        = [] := by
      rw [← hfull, h0]
    have h2 := (List.append_eq_nil.mp ((List.append_eq_nil.mp h1).1)).1
    exact absurd h2 (by decide)
  · refine ⟨tmpl_before_fallback.data,
      (tmpl_after_fallback.data ++ q.data) ++ tmpl_between_stripped.data, ?_⟩
    rw [hfull,
      show (tmpl_before_question.data : List Char) =
        (tmpl_before_fallback.data ++ fallback_instruction.data) ++ tmpl_after_fallback.data
      from rfl]
    simp only [List.append_assoc]
